import Mathlib

/-!
A shallow embedding of the montague repository's formula interpreter
(src/montague/interpreter.py) and recursive-descent parser
(src/montague/parsing.py), together with theorems checking the
specification's claims about them.

Python conventions are modelled explicitly:
* raised exceptions become `Except` error values (`PyErr`),
* the mutable `dict` of assignments becomes an insertion-ordered
  association list threaded through the interpreter,
* Python truthiness of the values the interpreter can produce is the
  `truthy` function,
* generators (the `tokenize` generator) become the list of values they
  yield, paired with the exception, if any, that the generator raises
  once those values are exhausted.
-/

/-- Python exceptions that the embedded code can raise.  Constructors carry
the structured data of the corresponding Python exception instead of its
formatted message string.  The constructor `unboundVariableError` is
Modelled from the spec: the spec's error taxonomy names an
`UnboundVariableError` class; nothing in src/montague/interpreter.py
constructs it (the `Var` branch is a bare dict lookup). -/
inductive PyErr where
  | stopIteration
  | nameError (name : String)
  | runtimeMismatch (value : String) (line : Nat)
  | runtimePremature
  | runtimeTrailing (line : Nat)
  | runtimeExpected (expected : String) (got : String) (line : Nat)
  | keyError (key : String)
  | typeError (msg : String)
  | exceptionUnhandled (className : String)
  | unboundVariableError (name : String)
  | outOfFuel
deriving DecidableEq

/-- The Python values the interpreter manipulates: `None`, booleans,
opaque individuals (identified by name), and sets (modelled as lists,
with membership tested by structural equality). -/
inductive Value where
  | none
  | bool (b : Bool)
  | ind (name : String)
  | set (elems : List Value)

mutual

/-- Structural equality on values, the embedding of Python `==` for the
objects the interpreter manipulates (used by the `in` membership test of
the `Call` branch). -/
def Value.beq : Value → Value → Bool
  | Value.none, Value.none => true
  | Value.bool a, Value.bool b => a == b
  | Value.ind a, Value.ind b => a == b
  | Value.set a, Value.set b => Value.beqList a b
  | _, _ => false

/-- Elementwise `Value.beq` on lists. -/
def Value.beqList : List Value → List Value → Bool
  | [], [] => true
  | a :: as, b :: bs => Value.beq a b && Value.beqList as bs
  | _, _ => false

end

instance : BEq Value := ⟨Value.beq⟩

/-- Python truthiness of a `Value`: `None` is falsy, a boolean is itself,
a string-named individual is truthy iff nonempty, a set is truthy iff
nonempty. -/
def truthy : Value → Bool
  | Value.none => false
  | Value.bool b => b
  | Value.ind name => !(name == "")
  | Value.set elems => !(elems.isEmpty)

/-- `d.get(k)` on an insertion-ordered Python dict. -/
def dictGet (d : List (String × Value)) (k : String) : Option Value :=
  match d with
  | [] => Option.none
  | (k2, v) :: rest => if k2 = k then some v else dictGet rest k

/-- `d[k] = v` on an insertion-ordered Python dict: overwrite in place if
the key exists, otherwise append. -/
def dictSet (d : List (String × Value)) (k : String) (v : Value) :
    List (String × Value) :=
  match d with
  | [] => [(k, v)]
  | (k2, v2) :: rest =>
      if k2 = k then (k2, v) :: rest else (k2, v2) :: dictSet rest k v

/-- `WorldModel = namedtuple('WorldModel', ['individuals', 'assignments'])`
from src/montague/interpreter.py. -/
structure WorldModel where
  individuals : List Value
  assignments : List (String × Value)

/-- The formula classes imported by src/montague/interpreter.py from
montague.formula (`Var`, `And`, `Or`, `IfThen`, `Not`, `Call`, `ForAll`,
`Exists`), plus `Lambda`, the class without an interpreter branch that
falls into the final `else` (see the TODO at interpreter.py lines 58-61). -/
inductive Formula where
  | Var (value : String)
  | And (left : Formula) (right : Formula)
  | Or (left : Formula) (right : Formula)
  | IfThen (left : Formula) (right : Formula)
  | Not (operand : Formula)
  | Call (caller : Formula) (arg : Formula)
  | ForAll (symbol : String) (body : Formula)
  | Exists (symbol : String) (body : Formula)
  | Lambda (parameter : String) (body : Formula)
deriving DecidableEq

mutual

/-- `interpret_formula(formula, model)` from src/montague/interpreter.py.
Returns the interpreter's result (or the exception it raises) together
with the model as the call leaves it, since the assignments dict is
mutated in place. -/
def interpret_formula (f : Formula) (m : WorldModel) :
    Except PyErr Value × WorldModel :=
  match f with
  | Formula.Var value =>
      match dictGet m.assignments value with
      | some v => (Except.ok v, m)
      | Option.none => (Except.error (PyErr.keyError value), m)
  | Formula.And left right =>
      match interpret_formula left m with
      | (Except.error e, m1) => (Except.error e, m1)
      | (Except.ok lv, m1) =>
          if truthy lv then interpret_formula right m1 else (Except.ok lv, m1)
  | Formula.Or left right =>
      match interpret_formula left m with
      | (Except.error e, m1) => (Except.error e, m1)
      | (Except.ok lv, m1) =>
          if truthy lv then (Except.ok lv, m1) else interpret_formula right m1
  | Formula.IfThen left right =>
      match interpret_formula left m with
      | (Except.error e, m1) => (Except.error e, m1)
      | (Except.ok lv, m1) =>
          if truthy lv then interpret_formula right m1
          else (Except.ok (Value.bool true), m1)
  | Formula.Call caller arg =>
      match interpret_formula caller m with
      | (Except.error e, m1) => (Except.error e, m1)
      | (Except.ok callerv, m1) =>
          match interpret_formula arg m1 with
          | (Except.error e, m2) => (Except.error e, m2)
          | (Except.ok argv, m2) =>
              match callerv with
              | Value.set elems =>
                  (Except.ok (Value.bool (elems.contains argv)), m2)
              | _ => (Except.error (PyErr.typeError "not iterable"), m2)
  | Formula.ForAll symbol body =>
      let old := (dictGet m.assignments symbol).getD Value.none
      forall_loop symbol body old m.individuals m
  | Formula.Exists symbol body =>
      let old := (dictGet m.assignments symbol).getD Value.none
      exists_loop symbol body old m.individuals m
  | Formula.Not operand =>
      match interpret_formula operand m with
      | (Except.error e, m1) => (Except.error e, m1)
      | (Except.ok v, m1) => (Except.ok (Value.bool (!(truthy v))), m1)
  | Formula.Lambda _ _ =>
      (Except.error (PyErr.exceptionUnhandled "LambdaNode"), m)
termination_by (sizeOf f, 0)

/-- The `for individual in model.individuals` loop of the `ForAll` branch
of `interpret_formula`, with `old` the saved `assignments.get(symbol)`
(Python `None` when the key was absent). -/
def forall_loop (symbol : String) (body : Formula) (old : Value)
    (inds : List Value) (m : WorldModel) : Except PyErr Value × WorldModel :=
  match inds with
  | [] =>
      (Except.ok (Value.bool true),
        { m with assignments := dictSet m.assignments symbol old })
  | individual :: rest =>
      let m1 := { m with assignments := dictSet m.assignments symbol individual }
      match interpret_formula body m1 with
      | (Except.error e, m2) => (Except.error e, m2)
      | (Except.ok v, m2) =>
          if truthy v then forall_loop symbol body old rest m2
          else
            (Except.ok (Value.bool false),
              { m2 with assignments := dictSet m2.assignments symbol old })
termination_by (sizeOf body, inds.length + 1)

/-- The `for individual in model.individuals` loop of the `Exists` branch
of `interpret_formula`. -/
def exists_loop (symbol : String) (body : Formula) (old : Value)
    (inds : List Value) (m : WorldModel) : Except PyErr Value × WorldModel :=
  match inds with
  | [] =>
      (Except.ok (Value.bool false),
        { m with assignments := dictSet m.assignments symbol old })
  | individual :: rest =>
      let m1 := { m with assignments := dictSet m.assignments symbol individual }
      match interpret_formula body m1 with
      | (Except.error e, m2) => (Except.error e, m2)
      | (Except.ok v, m2) =>
          if truthy v then
            (Except.ok (Value.bool true),
              { m2 with assignments := dictSet m2.assignments symbol old })
          else exists_loop symbol body old rest m2
termination_by (sizeOf body, inds.length + 1)

end

/-- `Token = namedtuple('Token', ['typ', 'value', 'line', 'column'])` from
src/montague/parsing.py. -/
structure Token where
  typ : String
  value : String
  line : Nat
  column : Nat
deriving DecidableEq

/-- `[A-Za-z]`. -/
def isLetterChar (c : Char) : Bool :=
  ('A' ≤ c && c ≤ 'Z') || ('a' ≤ c && c ≤ 'z')

/-- `[A-Za-z0-9_'-]`, the continuation characters of a SYMBOL token. -/
def isSymbolContChar (c : Char) : Bool :=
  isLetterChar c || ('0' ≤ c && c ≤ '9') || c = '_' || c = '\'' || c = '-'

/-- Python `\s` on the ASCII characters. -/
def isSpaceChar (c : Char) : Bool :=
  c = ' ' || c = '\t' || c = '\n' || c = '\r' || c = '\x0b' || c = '\x0c'

/-- The loop body of `tokenize` from src/montague/parsing.py.  The Python
regex `_TOKEN_REGEX` is an ordered alternation tried first-to-last at each
position (`LAMBDA` before `SYMBOL`, `NEWLINE` before `SKIP`, `MISMATCH`
last), which this match mirrors case by case.  The `NEWLINE` branch
updates `line_start` and then executes `line_num += 1`, a read of the
never-assigned local `line_num` (the counter initialised at the top of
`tokenize` is spelled `lineno`), so it raises an `UnboundLocalError`
naming `line_num`; the yielded tokens up to that point, paired with the
raised exception, are the embedding of the generator. -/
def tokenizeAux (fuel : Nat) (cs : List Char) (pos lineno lineStart : Nat) :
    List Token × Option PyErr :=
  match fuel, cs with
  | _, [] => ([], Option.none)
  | 0, _ :: _ => ([], some PyErr.outOfFuel)
  | fuel + 1, c :: rest =>
      if c = 'L' then
        let (ts, e) := tokenizeAux fuel rest (pos + 1) lineno lineStart
        (⟨"LAMBDA", "L", lineno, pos - lineStart⟩ :: ts, e)
      else if isLetterChar c then
        let run := rest.takeWhile isSymbolContChar
        let (ts, e) :=
          tokenizeAux fuel (rest.drop run.length) (pos + 1 + run.length) lineno
            lineStart
        (⟨"SYMBOL", String.mk (c :: run), lineno, pos - lineStart⟩ :: ts, e)
      else if c = '&' then
        let (ts, e) := tokenizeAux fuel rest (pos + 1) lineno lineStart
        (⟨"AND", "&", lineno, pos - lineStart⟩ :: ts, e)
      else if c = '|' then
        let (ts, e) := tokenizeAux fuel rest (pos + 1) lineno lineStart
        (⟨"OR", "|", lineno, pos - lineStart⟩ :: ts, e)
      else if c = '[' then
        let (ts, e) := tokenizeAux fuel rest (pos + 1) lineno lineStart
        (⟨"LBRACKET", "[", lineno, pos - lineStart⟩ :: ts, e)
      else if c = ']' then
        let (ts, e) := tokenizeAux fuel rest (pos + 1) lineno lineStart
        (⟨"RBRACKET", "]", lineno, pos - lineStart⟩ :: ts, e)
      else if c = '(' then
        let (ts, e) := tokenizeAux fuel rest (pos + 1) lineno lineStart
        (⟨"LPAREN", "(", lineno, pos - lineStart⟩ :: ts, e)
      else if c = ')' then
        let (ts, e) := tokenizeAux fuel rest (pos + 1) lineno lineStart
        (⟨"RPAREN", ")", lineno, pos - lineStart⟩ :: ts, e)
      else if c = ',' then
        let (ts, e) := tokenizeAux fuel rest (pos + 1) lineno lineStart
        (⟨"COMMA", ",", lineno, pos - lineStart⟩ :: ts, e)
      else if c = '.' then
        let (ts, e) := tokenizeAux fuel rest (pos + 1) lineno lineStart
        (⟨"DOT", ".", lineno, pos - lineStart⟩ :: ts, e)
      else if c = '\n' then
        ([], some (PyErr.nameError "line_num"))
      else if isSpaceChar c then
        let run := rest.takeWhile isSpaceChar
        tokenizeAux fuel (rest.drop run.length) (pos + 1 + run.length) lineno
          lineStart
      else
        ([], some (PyErr.runtimeMismatch (String.mk [c]) lineno))

/-- `tokenize(formula)` from src/montague/parsing.py: the tokens the
generator yields, paired with the exception it raises afterwards, if any
(`none` means it simply ends, i.e. raises `StopIteration`). -/
def tokenize (formula : String) : List Token × Option PyErr :=
  tokenizeAux formula.toList.length formula.toList 0 1 0

/-- The `IteratorWithMemory` class of src/montague/parsing.py, wrapping a
(finite) iterator modelled as the list of its remaining elements. -/
structure IteratorWithMemory (α : Type) where
  iterator : List α
  memory : Option α
deriving DecidableEq

/-- `IteratorWithMemory.__next__`: return and clear the memory if one is
set (Python tests `is not None`), else advance the underlying iterator,
raising `StopIteration` when it is exhausted. -/
def IteratorWithMemory.next {α : Type} (it : IteratorWithMemory α) :
    Except PyErr (α × IteratorWithMemory α) :=
  match it.memory with
  | some v => Except.ok (v, ⟨it.iterator, Option.none⟩)
  | Option.none =>
      match it.iterator with
      | x :: xs => Except.ok (x, ⟨xs, Option.none⟩)
      | [] => Except.error PyErr.stopIteration

/-- `IteratorWithMemory.push`: `self.memory = val` (an argument of `None`
leaves the memory empty). -/
def IteratorWithMemory.push {α : Type} (it : IteratorWithMemory α)
    (val : Option α) : IteratorWithMemory α :=
  { it with memory := val }

/-- The state of the token stream `tz` inside `parse_formula`: an
`IteratorWithMemory` wrapped around the `tokenize` generator, i.e. the
generator's remaining tokens, the exception the generator raises when
they run out (`pending`), and the one-token push-back memory. -/
structure TzState where
  toks : List Token
  pending : Option PyErr
  memory : Option Token
deriving DecidableEq

/-- `next(tz)` on the parser's token stream. -/
def tzNext (s : TzState) : Except PyErr (Token × TzState) :=
  match s.memory with
  | some t => Except.ok (t, { s with memory := Option.none })
  | Option.none =>
      match s.toks with
      | t :: rest => Except.ok (t, { s with toks := rest })
      | [] =>
          match s.pending with
          | some e => Except.error e
          | Option.none => Except.error PyErr.stopIteration

/-- `tz.push(tkn)` on the parser's token stream. -/
def tzPush (s : TzState) (val : Option Token) : TzState :=
  { s with memory := val }

/-- The Node classes of src/montague/parsing.py: `VarNode`, `AndNode`,
`OrNode`, `LambdaNode` (whose parameter is itself a `VarNode`), and
`CallNode(symbol, args)` whose second field is the list of parsed
arguments. -/
inductive Node where
  | VarNode (value : String)
  | AndNode (left : Node) (right : Node)
  | OrNode (left : Node) (right : Node)
  | LambdaNode (parameter : Node) (body : Node)
  | CallNode (symbol : Node) (args : List Node)

mutual

/-- `match_e(tz)` from src/montague/parsing.py.  `fuel` bounds the
recursion depth for termination only; it is a function of the token count
chosen in `parse_formula` so that it can never run out before the parser
finishes. -/
def match_e (fuel : Nat) (tz : TzState) : Except PyErr (Node × TzState) :=
  match fuel with
  | 0 => Except.error PyErr.outOfFuel
  | fuel + 1 =>
      match tzNext tz with
      | Except.error e => Except.error e
      | Except.ok (tkn, tz) =>
          let tz := tzPush tz (some tkn)
          if tkn.typ = "LAMBDA" then match_lambda fuel tz
          else
            match match_term fuel tz with
            | Except.error e => Except.error e
            | Except.ok (left_term, tz) =>
                match tzNext tz with
                | Except.error PyErr.stopIteration => Except.ok (left_term, tz)
                | Except.error e => Except.error e
                | Except.ok (tkn, tz2) =>
                    if tkn.typ = "OR" then
                      match match_term fuel tz2 with
                      | Except.error e => Except.error e
                      | Except.ok (right_term, tz3) =>
                          Except.ok (Node.OrNode left_term right_term, tz3)
                    else Except.ok (left_term, tzPush tz2 (some tkn))

/-- `match_lambda(tz)` from src/montague/parsing.py. -/
def match_lambda (fuel : Nat) (tz : TzState) : Except PyErr (Node × TzState) :=
  match fuel with
  | 0 => Except.error PyErr.outOfFuel
  | fuel + 1 =>
      match tzNext tz with
      | Except.error e => Except.error e
      | Except.ok (tkn, tz) =>
          if tkn.typ ≠ "LAMBDA" then
            Except.error (PyErr.runtimeExpected "L" tkn.value tkn.line)
          else
            match tzNext tz with
            | Except.error e => Except.error e
            | Except.ok (tkn, tz) =>
                if tkn.typ ≠ "SYMBOL" then
                  Except.error (PyErr.runtimeExpected "symbol" tkn.value tkn.line)
                else
                  let parameter := Node.VarNode tkn.value
                  match tzNext tz with
                  | Except.error e => Except.error e
                  | Except.ok (tkn, tz) =>
                      if tkn.typ ≠ "DOT" then
                        Except.error (PyErr.runtimeExpected "." tkn.value tkn.line)
                      else
                        match match_e fuel tz with
                        | Except.error e => Except.error e
                        | Except.ok (body, tz) =>
                            Except.ok (Node.LambdaNode parameter body, tz)

/-- `match_symbol_postfix(tz)` from src/montague/parsing.py.  Returns
`none` (Python `None`) when no parenthesised argument list follows. -/
def match_symbol_postfix (fuel : Nat) (tz : TzState) :
    Except PyErr (Option (List Node) × TzState) :=
  match fuel with
  | 0 => Except.error PyErr.outOfFuel
  | fuel + 1 =>
      match tzNext tz with
      | Except.error PyErr.stopIteration => Except.ok (Option.none, tz)
      | Except.error e => Except.error e
      | Except.ok (tkn, tz) =>
          if tkn.typ ≠ "LPAREN" then
            Except.ok (Option.none, tzPush tz (some tkn))
          else
            match match_arglist fuel tz with
            | Except.error e => Except.error e
            | Except.ok (args, tz) =>
                match tzNext tz with
                | Except.error e => Except.error e
                | Except.ok (tkn, tz) =>
                    if tkn.typ ≠ "RPAREN" then
                      Except.error (PyErr.runtimeExpected ")" tkn.value tkn.line)
                    else Except.ok (some args, tz)

/-- `match_arglist(tz)` from src/montague/parsing.py (its `while True`
loop, unrolled into recursion; the `args` accumulator becomes the
returned list). -/
def match_arglist (fuel : Nat) (tz : TzState) :
    Except PyErr (List Node × TzState) :=
  match fuel with
  | 0 => Except.error PyErr.outOfFuel
  | fuel + 1 =>
      match tzNext tz with
      | Except.error e => Except.error e
      | Except.ok (tkn, tz) =>
          let tz := tzPush tz (some tkn)
          if tkn.typ = "RPAREN" then Except.ok ([], tz)
          else
            match match_e fuel tz with
            | Except.error e => Except.error e
            | Except.ok (e, tz) =>
                match tzNext tz with
                | Except.error err => Except.error err
                | Except.ok (tkn, tz) =>
                    if tkn.typ = "RPAREN" then
                      Except.ok ([e], tzPush tz (some tkn))
                    else if tkn.typ = "COMMA" then
                      match match_arglist fuel tz with
                      | Except.error err => Except.error err
                      | Except.ok (args, tz) => Except.ok (e :: args, tz)
                    else
                      Except.error (PyErr.runtimeExpected ", or )" tkn.value tkn.line)

/-- `match_term(tz)` from src/montague/parsing.py. -/
def match_term (fuel : Nat) (tz : TzState) : Except PyErr (Node × TzState) :=
  match fuel with
  | 0 => Except.error PyErr.outOfFuel
  | fuel + 1 =>
      match match_factor fuel tz with
      | Except.error e => Except.error e
      | Except.ok (left_factor, tz) =>
          match tzNext tz with
          | Except.error PyErr.stopIteration => Except.ok (left_factor, tz)
          | Except.error e => Except.error e
          | Except.ok (tkn, tz2) =>
              if tkn.typ = "AND" then
                match match_factor fuel tz2 with
                | Except.error e => Except.error e
                | Except.ok (right_factor, tz3) =>
                    Except.ok (Node.AndNode left_factor right_factor, tz3)
              else Except.ok (left_factor, tzPush tz2 (some tkn))

/-- `match_factor(tz)` from src/montague/parsing.py. -/
def match_factor (fuel : Nat) (tz : TzState) : Except PyErr (Node × TzState) :=
  match fuel with
  | 0 => Except.error PyErr.outOfFuel
  | fuel + 1 =>
      match tzNext tz with
      | Except.error e => Except.error e
      | Except.ok (tkn, tz) =>
          if tkn.typ = "SYMBOL" then
            match match_symbol_postfix fuel tz with
            | Except.error e => Except.error e
            | Except.ok (pfx, tz) =>
                match pfx with
                | Option.none => Except.ok (Node.VarNode tkn.value, tz)
                | some args =>
                    Except.ok (Node.CallNode (Node.VarNode tkn.value) args, tz)
          else if tkn.typ = "LBRACKET" then
            match match_e fuel tz with
            | Except.error e => Except.error e
            | Except.ok (e, tz) =>
                match tzNext tz with
                | Except.error err => Except.error err
                | Except.ok (tkn, tz) =>
                    if tkn.typ = "RBRACKET" then Except.ok (e, tz)
                    else Except.error (PyErr.runtimeExpected "]" tkn.value tkn.line)
          else Except.error (PyErr.runtimeExpected "symbol" tkn.value tkn.line)

end

/-- `parse_formula(formula)` from src/montague/parsing.py: tokenize, wrap
the generator in an `IteratorWithMemory`, run `match_e` (converting a
`StopIteration` escaping it into the premature-end `RuntimeError`), and
require the stream to be exhausted afterwards. -/
def parse_formula (formula : String) : Except PyErr Node :=
  let (toks, pending) := tokenize formula
  let tz : TzState := ⟨toks, pending, Option.none⟩
  match match_e (10 * toks.length + 10) tz with
  | Except.error PyErr.stopIteration => Except.error PyErr.runtimePremature
  | Except.error e => Except.error e
  | Except.ok (tree, tz) =>
      match tzNext tz with
      | Except.ok (tkn, _) => Except.error (PyErr.runtimeTrailing tkn.line)
      | Except.error PyErr.stopIteration => Except.ok tree
      | Except.error e => Except.error e

/-- C1: the claim says interpreting `ForAll(symbol, body)` or
`Exists(symbol, body)` leaves the model's assignment for `symbol` at its
pre-call value even when the symbol was absent before the call.  The code
saves `assignments.get(symbol)` — which is `None` for an absent key — and
"restores" by assignment, so on a model with empty domain and empty
assignments both quantifiers leave the map holding `symbol ↦ None`: the key
becomes present, observably so, since a subsequent `Var` lookup then
returns `None` where it raised `KeyError` before the call. -/
theorem C1_quantifier_restoration_bug :
    interpret_formula (Formula.ForAll "x" (Formula.Var "x")) ⟨[], []⟩
      = (Except.ok (Value.bool true), ⟨[], [("x", Value.none)]⟩)
    ∧ interpret_formula (Formula.Exists "x" (Formula.Var "x")) ⟨[], []⟩
      = (Except.ok (Value.bool false), ⟨[], [("x", Value.none)]⟩)
    ∧ (interpret_formula (Formula.Var "x") ⟨[], []⟩).1
      = Except.error (PyErr.keyError "x")
    ∧ (interpret_formula (Formula.Var "x") ⟨[], [("x", Value.none)]⟩).1
      = Except.ok Value.none := by
  refine ⟨?_, ?_, ?_, ?_⟩ <;>
    simp [interpret_formula, forall_loop, exists_loop, dictGet, dictSet]

/-- C2 counterexample: `parse_formula "f(a,b)"` returns a single
`CallNode` carrying the two-element argument list, and in particular not
the left-nested chain `CallNode(CallNode(f, [a]), [b])` that is the
nearest rendering of the claimed `Call(Call(f,a),b)` in this parser's
node type (whose `CallNode` second field is a list, not a formula). -/
theorem C2_counterexample :
    parse_formula "f(a,b)"
      = Except.ok (Node.CallNode (Node.VarNode "f")
          [Node.VarNode "a", Node.VarNode "b"])
    ∧ parse_formula "f(a,b)"
      ≠ Except.ok (Node.CallNode
          (Node.CallNode (Node.VarNode "f") [Node.VarNode "a"])
          [Node.VarNode "b"]) := by
  refine ⟨rfl, fun h => ?_⟩
  injection h with h
  injection h with h1 h2
  exact Node.noConfusion h1

/-- C2 (amended): a call expression parses to one `CallNode` whose second
field is the list of parsed arguments in order — `f(a,b)` yields
`CallNode(VarNode f, [a, b])` and the one-argument call `f(a)` yields
`CallNode(VarNode f, [a])`, a singleton list rather than the bare
argument and rather than nested binary `Call` chains. -/
theorem C2_call_args_list :
    parse_formula "f(a,b)"
      = Except.ok (Node.CallNode (Node.VarNode "f")
          [Node.VarNode "a", Node.VarNode "b"])
    ∧ parse_formula "f(a)"
      = Except.ok (Node.CallNode (Node.VarNode "f") [Node.VarNode "a"]) :=
  ⟨rfl, rfl⟩

/-- C3: the claim says chains of three or more AND/OR operands parse
right-associatively and without error.  In fact `match_e` and
`match_term` consume at most one connective each (no loop, despite the
`term { OR term }` repetition grammar in `parse_formula`'s docstring), so
after the leading binary node is built the third operand's connective is
still in the stream and `parse_formula` raises the trailing-tokens
`RuntimeError`; plain binary connectives do parse. -/
theorem C3_chained_connectives_error :
    parse_formula "a & b & c" = Except.error (PyErr.runtimeTrailing 1)
    ∧ parse_formula "a | b | c" = Except.error (PyErr.runtimeTrailing 1)
    ∧ parse_formula "a & b"
      = Except.ok (Node.AndNode (Node.VarNode "a") (Node.VarNode "b")) :=
  ⟨rfl, rfl, rfl⟩

/-- C4 counterexample: `parse_formula "x & y | z -> m"` does not return
any tree: the token grammar has no `->` token (and no `MISMATCH`-exempt
character), so the tokenize generator raises its `RuntimeError` at the
`'-'` character, which propagates out of `parse_formula`. -/
theorem C4_counterexample :
    parse_formula "x & y | z -> m"
      = Except.error (PyErr.runtimeMismatch "-" 1) := rfl

/-- C4 (amended): the parser has no `->` connective, so
`parse_formula "x & y | z -> m"` fails with the tokenizer's
`RuntimeError` at the unexpected `'-'`; the part of the precedence claim
the grammar does cover holds: AND binds tighter than OR, so
`parse_formula "x & y | z"` yields `Or(And(x, y), z)`. -/
theorem C4_and_or_precedence_no_ifthen :
    parse_formula "x & y | z"
      = Except.ok (Node.OrNode
          (Node.AndNode (Node.VarNode "x") (Node.VarNode "y"))
          (Node.VarNode "z"))
    ∧ parse_formula "x & y | z -> m"
      = Except.error (PyErr.runtimeMismatch "-" 1) :=
  ⟨rfl, rfl⟩

/-- C5 counterexample: on a `Var` with no binding the interpreter's bare
dict lookup raises `KeyError`, which is not the `UnboundVariableError`
the claim names (an error class nothing in interpreter.py constructs). -/
theorem C5_counterexample :
    interpret_formula (Formula.Var "x") ⟨[], []⟩
      = (Except.error (PyErr.keyError "x"), ⟨[], []⟩)
    ∧ PyErr.keyError "x" ≠ PyErr.unboundVariableError "x" := by
  refine ⟨?_, ?_⟩
  · simp [interpret_formula, dictGet]
  · decide

/-- C5 (amended): whenever `interpret_formula` reaches a `Var` whose name
has no binding in the model's assignment map, the dict lookup raises a
`KeyError` naming the variable, reported to the caller with the model
untouched; it never silently defaults to a value. -/
theorem C5_var_unbound_keyerror (name : String) (m : WorldModel)
    (h : dictGet m.assignments name = Option.none) :
    interpret_formula (Formula.Var name) m
      = (Except.error (PyErr.keyError name), m) := by
  simp [interpret_formula, h]

/-- C5 witness: the amended theorem applied to the concrete unbound
variable `"y"` in a model whose assignment map binds only `"x"`. -/
theorem C5_var_unbound_keyerror_witness :
    dictGet (⟨[], [("x", Value.bool true)]⟩ : WorldModel).assignments "y"
      = Option.none
    ∧ interpret_formula (Formula.Var "y") ⟨[], [("x", Value.bool true)]⟩
      = (Except.error (PyErr.keyError "y"), ⟨[], [("x", Value.bool true)]⟩) :=
  ⟨rfl, C5_var_unbound_keyerror "y" ⟨[], [("x", Value.bool true)]⟩ rfl⟩

/-- C6: the claim says a `Lambda` node reaching the interpreter fails
with an `UninterpretableFormError` distinct from the unbound-variable
failure.  The interpreter has no `Lambda` branch: every `Lambda` falls
into the final `else`, which raises the generic
`Exception('Unhandled class', formula.__class__)` (the TODO at
interpreter.py lines 58-61 admits lambdas "should give a better error
message"). -/
theorem C6_lambda_unhandled_exception (parameter : String) (body : Formula)
    (m : WorldModel) :
    interpret_formula (Formula.Lambda parameter body) m
      = (Except.error (PyErr.exceptionUnhandled "LambdaNode"), m) := by
  simp [interpret_formula]

/-- C7: the claim says tokenizing succeeds on inputs containing newlines,
incrementing the line number.  The `NEWLINE` branch of `tokenize` runs
`line_num += 1`, but the counter initialised at the top of the function
is named `lineno`, so the first newline raises an `UnboundLocalError`
naming `line_num` after yielding the tokens before it.  The rest of the
claim does hold: unmatched characters raise the `MISMATCH`
`RuntimeError`, and tokens of newline-free input carry line 1 and their
column. -/
theorem C7_tokenize_newline_crash :
    tokenize "a\nb"
      = ([⟨"SYMBOL", "a", 1, 0⟩], some (PyErr.nameError "line_num"))
    ∧ tokenize "a?"
      = ([⟨"SYMBOL", "a", 1, 0⟩], some (PyErr.runtimeMismatch "?" 1))
    ∧ tokenize "a b"
      = ([⟨"SYMBOL", "a", 1, 0⟩, ⟨"SYMBOL", "b", 1, 2⟩], Option.none) :=
  ⟨rfl, rfl, rfl⟩

/-- C8: the claim says a multi-character symbol beginning with a reserved
letter, such as "Light", is an ordinary symbol parsing to
`Var("Light")`.  `_TOKEN_REGEX` is an ordered alternation with
`LAMBDA := r'L'` before `SYMBOL`, and Python's `re` takes the first
alternative that matches, so "Light" tokenizes as `LAMBDA` plus
`SYMBOL "ight"` and `parse_formula "Light"` dies with the premature-end
`RuntimeError` (while a symbol not starting with `L` parses fine, as the
module docstring — which reserves only the bare symbol "L" — intends for
"Light" too). -/
theorem C8_reserved_letter_prefix_bug :
    tokenize "Light"
      = ([⟨"LAMBDA", "L", 1, 0⟩, ⟨"SYMBOL", "ight", 1, 1⟩], Option.none)
    ∧ parse_formula "Light" = Except.error PyErr.runtimePremature
    ∧ parse_formula "apple" = Except.ok (Node.VarNode "apple") :=
  ⟨rfl, rfl, rfl⟩

/-- C9: on a model whose collection of individuals is empty, the
quantifier loops run zero iterations, so `interpret_formula` returns
`True` for `ForAll(symbol, body)` and `False` for `Exists(symbol, body)`
for every body formula and assignment map. -/
theorem C9_vacuous_quantification (symbol : String) (body : Formula)
    (m : WorldModel) (h : m.individuals = []) :
    (interpret_formula (Formula.ForAll symbol body) m).1
      = Except.ok (Value.bool true)
    ∧ (interpret_formula (Formula.Exists symbol body) m).1
      = Except.ok (Value.bool false) := by
  refine ⟨?_, ?_⟩ <;> simp [interpret_formula, h, forall_loop, exists_loop]

/-- C9 witness: the vacuous-quantification theorem applied to the empty
domain with body `Var "x"` and a nonempty assignment map. -/
theorem C9_vacuous_quantification_witness :
    (⟨[], [("y", Value.bool false)]⟩ : WorldModel).individuals = []
    ∧ (interpret_formula (Formula.ForAll "x" (Formula.Var "x"))
        ⟨[], [("y", Value.bool false)]⟩).1 = Except.ok (Value.bool true)
    ∧ (interpret_formula (Formula.Exists "x" (Formula.Var "x"))
        ⟨[], [("y", Value.bool false)]⟩).1 = Except.ok (Value.bool false) :=
  ⟨rfl,
    (C9_vacuous_quantification "x" (Formula.Var "x")
      ⟨[], [("y", Value.bool false)]⟩ rfl).1,
    (C9_vacuous_quantification "x" (Formula.Var "x")
      ⟨[], [("y", Value.bool false)]⟩ rfl).2⟩

/-- C10: for an `IteratorWithMemory` over any iterator in any state,
after `push(v)` with `v` not `None` the next `__next__` returns `v` and
leaves the underlying iterator where it was (so the call after that
resumes it); `push(None)` leaves the memory empty, so the next
`__next__` behaves exactly like the underlying iterator's next; and a
second `push` before an intervening `__next__` overwrites the first
pushed value. -/
theorem C10_iterator_with_memory (α : Type) (it : List α) (mem : Option α)
    (v w x : α) (xs : List α) :
    (IteratorWithMemory.push ⟨it, mem⟩ (some v)).next
      = Except.ok (v, ⟨it, Option.none⟩)
    ∧ (IteratorWithMemory.push ⟨it, mem⟩ Option.none).next
      = (⟨it, Option.none⟩ : IteratorWithMemory α).next
    ∧ (IteratorWithMemory.mk (x :: xs) Option.none).next
      = Except.ok (x, ⟨xs, Option.none⟩)
    ∧ IteratorWithMemory.push
        (IteratorWithMemory.push ⟨it, mem⟩ (some v)) (some w)
      = IteratorWithMemory.push ⟨it, mem⟩ (some w) :=
  ⟨rfl, rfl, rfl, rfl⟩
